import Mathlib

/-!
Verification of `src/bridging_mail_mcp.py`, a process bridge that spawns a
child process, relays its three standard streams line-by-line, forwards
termination signals, and exits with the child's exit code.

The embedding is shallow: each Python function becomes a Lean definition over
explicit data.  Streams are lists of lines (a line is a `List Char`, as yielded
by Python text-stream iteration); the side effects a relay performs on its
destination stream are recorded as a list of `IOEvent`s; the straight-line
control flow of `main` is modelled both as an outcome function (`mainRun`) and
as an operation trace (`mainTrace`).
-/

namespace BridgingMailMcp

/-- A line of text, as yielded by Python text-stream iteration: the characters
of the line including its terminating newline (a final line may lack one). -/
abbrev Line := List Char

/-- An effect a relay performs on its destination stream: writing one line, or
flushing.  Mirrors `stream.write(line)` / `stream.flush()` in the source. -/
inductive IOEvent where
  | write (l : Line)
  | flush
deriving DecidableEq

/-- Split a character stream into the lines Python text-file iteration yields:
each chunk ends with the `'\n'` that terminated it, except a final chunk that
reached end-of-stream without one.  `acc` holds the current line reversed. -/
def splitLinesAux : List Char → List Char → List Line
  | [], acc => if acc = [] then [] else [acc.reverse]
  | c :: cs, acc =>
      if c = '\n' then (acc.reverse ++ ['\n']) :: splitLinesAux cs []
      else splitLinesAux cs (c :: acc)

/-- The lines of a character stream, as Python text-file iteration yields them. -/
def splitLines (cs : List Char) : List Line := splitLinesAux cs []

/-- Body of the `read_stdout` closure in `main`: iterate the child's stdout
lines; `if line == "": break` stops at an empty line; otherwise write the line
to the bridge's stdout and flush, then continue. -/
def read_stdout : List Line → List IOEvent
  | [] => []
  | l :: ls => if l = [] then [] else .write l :: .flush :: read_stdout ls

/-- Body of the `read_stderr` closure in `main`: identical loop over the
child's stderr, writing to the bridge's stderr and flushing after each line. -/
def read_stderr : List Line → List IOEvent
  | [] => []
  | l :: ls => if l = [] then [] else .write l :: .flush :: read_stderr ls

/-- Body of the `forward_stdin` closure in `main`: iterate the bridge's own
stdin lines; write each to the child's stdin and flush, with no empty-line
check and no break. -/
def forward_stdin : List Line → List IOEvent
  | [] => []
  | l :: ls => .write l :: .flush :: forward_stdin ls

/-- The lines written by a sequence of relay events, in order. -/
def writes : List IOEvent → List Line
  | [] => []
  | .write l :: es => l :: writes es
  | .flush :: es => writes es

/-- True when every `write` event is immediately followed by a `flush`. -/
def flushedAfterEachWrite : List IOEvent → Bool
  | [] => true
  | .write _ :: .flush :: es => flushedAfterEachWrite es
  | .write _ :: _ => false
  | .flush :: es => flushedAfterEachWrite es

/-- Run a relay body whose source stream faults while handling the line at
index `errAt` (`none`: no fault).  Each closure wraps its whole loop in
`try: ... except: pass`, so a fault at line `i` leaves the lines before `i`
fully relayed and ends the relay silently — the function still returns. -/
def runRelay (body : List Line → List IOEvent) (lines : List Line)
    (errAt : Option Nat) : List IOEvent :=
  match errAt with
  | none => body lines
  | some i => body (lines.take i)

/-- The global `proc` variable as the signal handler observes it: `None`,
a spawned child with `poll()` still `None` (running), or an exited child. -/
inductive ProcView where
  | unset
  | running
  | exited (code : Int)
deriving DecidableEq

/-- What `handle_termination` did and how it left the bridge. -/
structure HandlerOutcome where
  terminateSent : Bool
  waitedForChild : Bool
  exitStatus : Int
deriving DecidableEq

/-- `handle_termination(signum, frame)`: if `proc and proc.poll() is None`,
call `proc.terminate()` inside `try: ... except: pass` (`terminateFails`
models the swallowed exception), then `sys.exit(0)` with no wait. -/
def handle_termination (p : ProcView) (terminateFails : Bool) : HandlerOutcome :=
  match p with
  | .running =>
      -- `proc.terminate()` is attempted; its failure is swallowed, so the
      -- outcome does not depend on `terminateFails`.
      { terminateSent := true, waitedForChild := false, exitStatus := 0 }
  | _ => { terminateSent := false, waitedForChild := false, exitStatus := 0 }

/-- The arguments `main` passes to `subprocess.Popen`. -/
structure PopenConfig where
  args : List String
  env : List (String × String)
  stdinPipe : Bool
  stdoutPipe : Bool
  stderrPipe : Bool
  creationflags : Nat
  textMode : Bool
  bufsize : Nat
deriving DecidableEq

/-- The `subprocess.Popen(...)` call in `main`, as a function of the bridge's
environment `os.environ`. -/
def popenCall (environ : List (String × String)) : PopenConfig :=
  { args := ["node", "C:/Users/Shuakami/mcp-mail/dist/index.js"]
    env := environ
    stdinPipe := true
    stdoutPipe := true
    stderrPipe := true
    creationflags := 0x08000000
    textMode := true
    bufsize := 1 }

/-- One run of the bridge, parameterised by everything the environment decides:
whether `subprocess.Popen` succeeds, the child's stream contents, the bridge's
own stdin, where (if anywhere) each relay's stream faults, whether
`proc.wait()` is interrupted by `KeyboardInterrupt`, the child's state and the
`terminate()` outcome at that moment, and the child's exit code. -/
structure Run where
  spawnOk : Bool
  childOutLines : List Line
  childErrLines : List Line
  stdinLines : List Line
  outFault : Option Nat
  errFault : Option Nat
  inFault : Option Nat
  waitInterrupted : Bool
  childRunningAtSignal : Bool
  terminateFailsAtSignal : Bool
  childExit : Int

/-- What a run of the bridge produced: the status passed to process exit, the
events each relay performed on its destination stream, and whether a
termination request was sent to the child. -/
structure Outcome where
  exitStatus : Int
  stdoutEvents : List IOEvent
  stderrEvents : List IOEvent
  childStdinEvents : List IOEvent
  terminateSent : Bool
deriving DecidableEq

/-- `main`: install the handlers, call `subprocess.Popen` (an exception there
propagates uncaught, so the interpreter exits with status 1 and no relay ever
starts), start the three relay threads, then `proc.wait()`.  A
`KeyboardInterrupt` during the wait runs `handle_termination(None, None)`;
otherwise `sys.exit(return_code)` with the child's code (`return_code` is not
`None` once `wait` returned). -/
def mainRun (r : Run) : Outcome :=
  if r.spawnOk = false then
    { exitStatus := 1
      stdoutEvents := []
      stderrEvents := []
      childStdinEvents := []
      terminateSent := false }
  else
    let h := handle_termination
      (if r.childRunningAtSignal then .running else .exited r.childExit)
      r.terminateFailsAtSignal
    { exitStatus := if r.waitInterrupted then h.exitStatus else r.childExit
      stdoutEvents := runRelay read_stdout r.childOutLines r.outFault
      stderrEvents := runRelay read_stderr r.childErrLines r.errFault
      childStdinEvents := runRelay forward_stdin r.stdinLines r.inFault
      terminateSent := if r.waitInterrupted then h.terminateSent else false }

/-- The operations `main` performs, in program order. -/
inductive Op where
  | installHandler (sig : Nat)
  | spawnAttempt
  | assignProc
  | startThread (daemon : Bool)
  | joinThread
  | waitChild
  | exitBridge (status : Int)
deriving DecidableEq

/-- The straight-line trace of `main`: `signal.signal` for SIGINT (2) and
SIGTERM (15), the single `subprocess.Popen` call assigned to the global
`proc`, three `threading.Thread(..., daemon=True).start()` calls, the wait,
and the final exit.  When the spawn raises, the trace stops there (the
exception propagates out of `main`); no path contains a thread join. -/
def mainTrace (spawnOk : Bool) (waitInterrupted : Bool) (childExit : Int) :
    List Op :=
  [.installHandler 2, .installHandler 15, .spawnAttempt] ++
  if spawnOk = false then []
  else
    [.assignProc,
     .startThread true, .startThread true, .startThread true,
     .waitChild,
     .exitBridge (if waitInterrupted then 0 else childExit)]

/-- True of the operations that start a relay thread. -/
def isStartThread : Op → Bool
  | .startThread _ => true
  | _ => false

/-- True of the single `subprocess.Popen` call. -/
def isSpawn : Op → Bool
  | .spawnAttempt => true
  | _ => false

/-- True of assignments to the global `proc`. -/
def isAssign : Op → Bool
  | .assignProc => true
  | _ => false

/-- True of thread joins. -/
def isJoin : Op → Bool
  | .joinThread => true
  | _ => false

/-! ### Helper lemmas -/

theorem splitLinesAux_ne_nil (cs : List Char) :
    ∀ acc l, l ∈ splitLinesAux cs acc → l ≠ [] := by
  induction cs with
  | nil =>
    intro acc l hl
    simp only [splitLinesAux] at hl
    split at hl
    · simp at hl
    · rename_i hacc
      simp only [List.mem_singleton] at hl
      subst hl
      simpa using hacc
  | cons c cs ih =>
    intro acc l hl
    simp only [splitLinesAux] at hl
    split at hl
    · rcases List.mem_cons.mp hl with h | h
      · subst h; simp
      · exact ih _ _ h
    · exact ih _ _ hl

theorem writes_read_stdout (ls : List Line) (h : ∀ l ∈ ls, l ≠ []) :
    writes (read_stdout ls) = ls := by
  induction ls with
  | nil => rfl
  | cons l ls ih =>
    have hl : l ≠ [] := h l (List.mem_cons_self l ls)
    simp only [read_stdout, if_neg hl, writes]
    rw [ih fun x hx => h x (List.mem_cons_of_mem _ hx)]

theorem writes_read_stderr (ls : List Line) (h : ∀ l ∈ ls, l ≠ []) :
    writes (read_stderr ls) = ls := by
  induction ls with
  | nil => rfl
  | cons l ls ih =>
    have hl : l ≠ [] := h l (List.mem_cons_self l ls)
    simp only [read_stderr, if_neg hl, writes]
    rw [ih fun x hx => h x (List.mem_cons_of_mem _ hx)]

theorem flushed_read_stdout (ls : List Line) :
    flushedAfterEachWrite (read_stdout ls) = true := by
  induction ls with
  | nil => rfl
  | cons l ls ih =>
    by_cases hl : l = []
    · simp [read_stdout, hl, flushedAfterEachWrite]
    · simp [read_stdout, hl, flushedAfterEachWrite, ih]

theorem flushed_read_stderr (ls : List Line) :
    flushedAfterEachWrite (read_stderr ls) = true := by
  induction ls with
  | nil => rfl
  | cons l ls ih =>
    by_cases hl : l = []
    · simp [read_stderr, hl, flushedAfterEachWrite]
    · simp [read_stderr, hl, flushedAfterEachWrite, ih]

theorem read_stdout_take_isPrefix (i : Nat) (ls : List Line) :
    read_stdout (ls.take i) <+: read_stdout ls := by
  induction ls generalizing i with
  | nil => simp [read_stdout]
  | cons l ls ih =>
    cases i with
    | zero => exact List.nil_prefix
    | succ j =>
      by_cases hl : l = []
      · simp [read_stdout, hl]
      · simp only [List.take, read_stdout, if_neg hl]
        obtain ⟨t, ht⟩ := ih j
        exact ⟨t, by simp [ht]⟩

theorem read_stderr_take_isPrefix (i : Nat) (ls : List Line) :
    read_stderr (ls.take i) <+: read_stderr ls := by
  induction ls generalizing i with
  | nil => simp [read_stderr]
  | cons l ls ih =>
    cases i with
    | zero => exact List.nil_prefix
    | succ j =>
      by_cases hl : l = []
      · simp [read_stderr, hl]
      · simp only [List.take, read_stderr, if_neg hl]
        obtain ⟨t, ht⟩ := ih j
        exact ⟨t, by simp [ht]⟩

theorem forward_stdin_take_isPrefix (i : Nat) (ls : List Line) :
    forward_stdin (ls.take i) <+: forward_stdin ls := by
  induction ls generalizing i with
  | nil => simp [forward_stdin]
  | cons l ls ih =>
    cases i with
    | zero => exact List.nil_prefix
    | succ j =>
      simp only [List.take, forward_stdin]
      obtain ⟨t, ht⟩ := ih j
      exact ⟨t, by simp [ht]⟩

/-! ### Claim theorems -/

/-- C1: if the child exits with code `K` and the wait completes uninterrupted,
the bridge's own process exits with status exactly `K`; if the wait was
interrupted before an exit code was obtained, the bridge exits with status 0. -/
theorem exit_status_equals_child_exit (r : Run) (h : r.spawnOk = true) :
    (r.waitInterrupted = false → (mainRun r).exitStatus = r.childExit) ∧
    (r.waitInterrupted = true → (mainRun r).exitStatus = 0) := by
  constructor <;> intro hw <;>
    cases hcr : r.childRunningAtSignal <;>
      simp [mainRun, h, hw, hcr, handle_termination]

/-- Witness for C1 at a concrete run with child exit code 7. -/
theorem exit_status_equals_child_exit_witness :
    (mainRun ⟨true, [], [], [], none, none, none, false, false, false, 7⟩).exitStatus = 7 ∧
    (mainRun ⟨true, [], [], [], none, none, none, true, true, false, 7⟩).exitStatus = 0 :=
  ⟨(exit_status_equals_child_exit ⟨true, [], [], [], none, none, none, false, false, false, 7⟩ rfl).1 rfl,
   (exit_status_equals_child_exit ⟨true, [], [], [], none, none, none, true, true, false, 7⟩ rfl).2 rfl⟩

/-- C2: on SIGINT or SIGTERM (handlers for both are installed), the handler
sends the child a termination request iff the child is still running, any
failure of that request changes nothing, and the bridge exits with status 0
without waiting for the child. -/
theorem handle_termination_spec (p : ProcView) (f f' : Bool) :
    ((handle_termination p f).terminateSent = true ↔ p = .running) ∧
    handle_termination p f = handle_termination p f' ∧
    (handle_termination p f).exitStatus = 0 ∧
    (handle_termination p f).waitedForChild = false ∧
    (∀ s w k, Op.installHandler 2 ∈ mainTrace s w k ∧
              Op.installHandler 15 ∈ mainTrace s w k) := by
  refine ⟨?_, ?_, ?_, ?_, ?_⟩
  · cases p <;> simp [handle_termination]
  · cases p <;> rfl
  · cases p <;> rfl
  · cases p <;> rfl
  · intro s w k
    cases s <;> simp [mainTrace]

/-- C3: if spawning the child fails, the bridge terminates with a non-zero
exit status and forwards no child output; the spawn is attempted exactly once
on every path, so a failure is never retried. -/
theorem spawn_failure_fails_fast (r : Run) (h : r.spawnOk = false)
    (w : Bool) (k : Int) :
    (mainRun r).exitStatus ≠ 0 ∧
    (mainRun r).stdoutEvents = [] ∧
    (mainRun r).stderrEvents = [] ∧
    List.countP isSpawn (mainTrace false w k) = 1 := by
  refine ⟨?_, ?_, ?_, ?_⟩
  · simp [mainRun, h]
  · simp [mainRun, h]
  · simp [mainRun, h]
  · cases w <;> rfl

/-- Witness for C3 at a concrete failed spawn. -/
theorem spawn_failure_fails_fast_witness :
    (mainRun ⟨false, [], [], [], none, none, none, false, false, false, 0⟩).exitStatus ≠ 0 ∧
    (mainRun ⟨false, [], [], [], none, none, none, false, false, false, 0⟩).stdoutEvents = [] ∧
    (mainRun ⟨false, [], [], [], none, none, none, false, false, false, 0⟩).stderrEvents = [] ∧
    List.countP isSpawn (mainTrace false true 0) = 1 :=
  spawn_failure_fails_fast ⟨false, [], [], [], none, none, none, false, false, false, 0⟩ rfl true 0

/-- C4: the input relay writes the sequence of lines read from the bridge's
stdin verbatim, in order, to the child's stdin, flushing after every line. -/
theorem forward_stdin_verbatim (ls : List Line) :
    writes (forward_stdin ls) = ls ∧
    flushedAfterEachWrite (forward_stdin ls) = true := by
  induction ls with
  | nil => exact ⟨rfl, rfl⟩
  | cons l ls ih =>
    exact ⟨by simp [forward_stdin, writes, ih.1],
           by simp [forward_stdin, flushedAfterEachWrite, ih.2]⟩

/-- C5: for every character stream the child writes to stdout (resp. stderr),
the output (resp. error) relay writes the identical lines verbatim, in
per-stream order, to the bridge's corresponding stream, flushing after every
line.  The two relays are separate functions on separate streams, so no
cross-stream order is modelled or guaranteed. -/
theorem output_relays_verbatim (cs ds : List Char) :
    (writes (read_stdout (splitLines cs)) = splitLines cs ∧
     flushedAfterEachWrite (read_stdout (splitLines cs)) = true) ∧
    (writes (read_stderr (splitLines ds)) = splitLines ds ∧
     flushedAfterEachWrite (read_stderr (splitLines ds)) = true) := by
  refine ⟨⟨?_, flushed_read_stdout _⟩, ⟨?_, flushed_read_stderr _⟩⟩
  · exact writes_read_stdout _ fun l hl => splitLinesAux_ne_nil cs [] l hl
  · exact writes_read_stderr _ fun l hl => splitLinesAux_ne_nil ds [] l hl

/-- C6: a stream fault inside any one relay terminates only that relay,
silently: the bridge's exit status and the other two relays' events are
unchanged by any choice of fault position, and the faulted relay's events are
a prefix of its fault-free events (the lines relayed before the fault). -/
theorem relay_fault_contained (r : Run) (e e' : Option Nat) (i : Nat) :
    ((mainRun { r with outFault := e }).exitStatus =
       (mainRun { r with outFault := e' }).exitStatus ∧
     (mainRun { r with errFault := e }).exitStatus =
       (mainRun { r with errFault := e' }).exitStatus ∧
     (mainRun { r with inFault := e }).exitStatus =
       (mainRun { r with inFault := e' }).exitStatus) ∧
    ((mainRun { r with outFault := e }).stderrEvents =
       (mainRun { r with outFault := e' }).stderrEvents ∧
     (mainRun { r with outFault := e }).childStdinEvents =
       (mainRun { r with outFault := e' }).childStdinEvents ∧
     (mainRun { r with errFault := e }).stdoutEvents =
       (mainRun { r with errFault := e' }).stdoutEvents ∧
     (mainRun { r with errFault := e }).childStdinEvents =
       (mainRun { r with errFault := e' }).childStdinEvents ∧
     (mainRun { r with inFault := e }).stdoutEvents =
       (mainRun { r with inFault := e' }).stdoutEvents ∧
     (mainRun { r with inFault := e }).stderrEvents =
       (mainRun { r with inFault := e' }).stderrEvents) ∧
    ((mainRun { r with outFault := some i }).stdoutEvents <+:
       (mainRun { r with outFault := none }).stdoutEvents ∧
     (mainRun { r with errFault := some i }).stderrEvents <+:
       (mainRun { r with errFault := none }).stderrEvents ∧
     (mainRun { r with inFault := some i }).childStdinEvents <+:
       (mainRun { r with inFault := none }).childStdinEvents) := by
  obtain ⟨s, co, ce, si, fo, fe, fi, w, cr, tf, k⟩ := r
  cases s <;>
    simp [mainRun, runRelay, read_stdout_take_isPrefix,
      read_stderr_take_isPrefix, forward_stdin_take_isPrefix]

/-- C7: the spawn call passes the bridge's environment to the child
unmodified. -/
theorem popen_env_unmodified (e : List (String × String)) :
    (popenCall e).env = e := rfl

/-- C8: on every path of `main` the spawn runs exactly once and the global
`proc` is assigned at most once (exactly once when the spawn succeeds), so at
most one Bridged Process ever exists per bridge instance. -/
theorem single_bridged_process (s w : Bool) (k : Int) :
    List.countP isSpawn (mainTrace s w k) = 1 ∧
    List.countP isAssign (mainTrace s w k) = (if s then 1 else 0) := by
  cases s <;> cases w <;> exact ⟨rfl, rfl⟩

/-- C9: a termination signal delivered while the process handle is still unset
sends no termination request to any process and exits the bridge with
status 0. -/
theorem signal_before_spawn (f : Bool) :
    handle_termination .unset f =
      { terminateSent := false, waitedForChild := false, exitStatus := 0 } := rfl

/-- C10: every relay thread is started as a daemon thread and no path of
`main` joins any thread, so bridge termination never blocks on a relay. -/
theorem relays_daemon_never_joined (s w : Bool) (k : Int) :
    List.countP isJoin (mainTrace s w k) = 0 ∧
    Op.startThread false ∉ mainTrace s w k ∧
    List.countP isStartThread (mainTrace s w k) = (if s then 3 else 0) := by
  cases s <;> cases w <;> refine ⟨rfl, ?_, rfl⟩ <;> simp [mainTrace]

end BridgingMailMcp
